import Mathlib

/-!
Verification development for the nuverse-app realtime card-game backend
(src/unnamed/part_000, first revision, lines 1-419, and the earlier
client:createCard handler draft in src/server/index.js).

The server is a set of socket event handlers, each a sequential script of
parameterized SQL statements against five tables (users, game_sessions,
player_sessions, cards, player_cards, combat_log) followed by socket emits.
We embed the database as a record of row lists plus auto-increment counters,
JavaScript runtime values as an inductive JSValue (so that the source's
falsy-coercion idiom someVal or-else null, written x || null, and its object
spread semantics are modelled faithfully), and each handler as a pure
function from a database state and the inbound payload to the new database
state together with the list of emitted events.
-/

set_option maxRecDepth 4000

/-- JavaScript runtime values as they flow through the handlers: null,
undefined (a missing object property), booleans, numbers (modelled as Int;
no handler does float arithmetic) and strings. -/
inductive JSValue where
  | vNull : JSValue
  | vUndefined : JSValue
  | vBool : Bool → JSValue
  | vNum : Int → JSValue
  | vStr : String → JSValue
deriving DecidableEq, Repr

namespace JSValue

/-- JavaScript truthiness: null, undefined, false, 0 and the empty string
are falsy, everything else truthy. -/
def truthy : JSValue → Bool
  | vNull => false
  | vUndefined => false
  | vBool b => b
  | vNum n => n != 0
  | vStr s => s != ""

/-- The source idiom value || null used for every optional card column in
the createCard INSERT: a falsy supplied value is coerced to SQL NULL. -/
def orNull (v : JSValue) : JSValue :=
  if v.truthy then v else vNull

/-- String coercion as used by the template literals building the
combat_log action descriptions. -/
def jsString : JSValue → String
  | vNull => "null"
  | vUndefined => "undefined"
  | vBool true => "true"
  | vBool false => "false"
  | vNum n => toString n
  | vStr s => s

end JSValue

/-- A JavaScript object as an association list from property names to
values; lookup takes the first binding, so an object literal with a spread
is encoded with the overriding entries first. -/
abbrev JSObj := List (String × JSValue)

namespace JSObj

/-- Property read: the first binding for the key, undefined when absent. -/
def get (o : JSObj) (k : String) : JSValue :=
  match o.find? (fun p => p.1 == k) with
  | some p => p.2
  | none => JSValue.vUndefined

/-- Whether the object has an own property named k. -/
def hasKey (o : JSObj) (k : String) : Bool :=
  (o.find? (fun p => p.1 == k)).isSome

end JSObj

/-- Row of the users table: auto-increment user_id plus the username. -/
structure UserRow where
  user_id : Nat
  username : String
deriving DecidableEq, Repr

/-- Row of the game_sessions table. -/
structure GameSessionRow where
  session_id : Nat
  gm_user_id : Nat
  session_name : String
deriving DecidableEq, Repr

/-- Row of the player_sessions join table. -/
structure PlayerSessionRow where
  user_id : Nat
  session_id : Nat
deriving DecidableEq, Repr

/-- Row of the cards (card definition) table: the auto-increment card_id
plus the 25 columns written by the createCard INSERT, kept as a column-name
to value association so that property reads against the row object (and in
particular reads of misspelled, nonexistent column names, which yield
undefined) are modelled exactly. -/
structure CardRow where
  card_id : Nat
  cols : List (String × JSValue)
deriving DecidableEq, Repr

/-- Column read on a cards row object (SELECT * row): card_id plus the
stored columns; a name that is no column of the row reads as undefined. -/
def CardRow.get (c : CardRow) (k : String) : JSValue :=
  if k == "card_id" then JSValue.vNum c.card_id
  else
    match c.cols.find? (fun p => p.1 == k) with
    | some p => p.2
    | none => JSValue.vUndefined

/-- Row of the player_cards table. location, slot_id and is_active hold
whatever JavaScript values the handlers wrote through the parameterized
statements. -/
structure PlayerCardRow where
  player_card_id : Nat
  user_id : Nat
  card_id : Nat
  session_id : Nat
  location : JSValue
  slot_id : JSValue
  is_active : JSValue
deriving DecidableEq, Repr

/-- Row of the combat_log table; action_timestamp is filled by the store
(modelled as a monotone counter shared with log_id). -/
structure CombatLogRow where
  log_id : Nat
  session_id : Nat
  user_id : Nat
  card_id : Nat
  action_type : String
  action_description : String
  action_timestamp : Nat
deriving DecidableEq, Repr

/-- The whole relational store plus the auto-increment counters. -/
structure DB where
  users : List UserRow
  sessions : List GameSessionRow
  playerSessions : List PlayerSessionRow
  cards : List CardRow
  playerCards : List PlayerCardRow
  combatLog : List CombatLogRow
  nextUserId : Nat
  nextSessionId : Nat
  nextCardId : Nat
  nextPlayerCardId : Nat
  nextLogId : Nat
deriving DecidableEq, Repr

/-- Field read on the merged row object returned by SELECT pc.*, c.* with
the join player_cards pc JOIN cards c: the driver builds one object keyed
by column name assigning pc columns first and c columns second, so for the
duplicated names (card_id, is_active) the cards column wins; a name that is
a column of neither table reads as undefined. -/
def joinedGet (pc : PlayerCardRow) (c : CardRow) (k : String) : JSValue :=
  if k == "card_id" then JSValue.vNum c.card_id
  else
    match c.cols.find? (fun p => p.1 == k) with
    | some p => p.2
    | none =>
      if k == "player_card_id" then JSValue.vNum pc.player_card_id
      else if k == "user_id" then JSValue.vNum pc.user_id
      else if k == "session_id" then JSValue.vNum pc.session_id
      else if k == "location" then pc.location
      else if k == "slot_id" then pc.slot_id
      else if k == "is_active" then pc.is_active
      else JSValue.vUndefined

/-- Addressing of an outbound socket emit: socket.emit goes to the calling
connection only, socket.to(room).emit to every room member except the
caller, io.to(room).emit to every room member. -/
inductive EmitTarget where
  | toCaller : EmitTarget
  | toRoomExceptCaller : Nat → EmitTarget
  | toRoom : Nat → EmitTarget
deriving DecidableEq, Repr

/-- The server:gameState snapshot object sent to a joining connection. -/
structure GameState where
  sessionId : Nat
  sessionName : String
  players : List JSObj
  allCardDefinitions : List JSObj
  cards : List JSObj
  combatLog : List JSObj
deriving DecidableEq, Repr

/-- Payload of an outbound emit. -/
inductive Payload where
  | pStr : String → Payload
  | pObj : JSObj → Payload
  | pGameState : GameState → Payload
deriving DecidableEq, Repr

/-- One outbound socket emit: target, event name, payload. -/
structure Emit where
  target : EmitTarget
  event : String
  payload : Payload
deriving DecidableEq, Repr

/-- Delivery of one emit given the calling connection and the membership
list of the room the target names. -/
def deliverTo (caller : Nat) (roomMembers : List Nat) : EmitTarget → List Nat
  | EmitTarget.toCaller => [caller]
  | EmitTarget.toRoomExceptCaller _ => roomMembers.filter (fun m => m != caller)
  | EmitTarget.toRoom _ => roomMembers

/-- Stable insertion into a list sorted ascending by the key. -/
def insertSorted (key : α → Nat) (a : α) : List α → List α
  | [] => [a]
  | b :: l => if key b ≤ key a then b :: insertSorted key a l else a :: b :: l

/-- Stable ascending sort by a Nat key, modelling SQL ORDER BY key ASC. -/
def sortByKey (key : α → Nat) : List α → List α
  | [] => []
  | a :: l => insertSorted key a (sortByKey key l)

/-- SELECT user_id FROM users WHERE username = ? followed by users[0], as
done (without lazy creation) by the moveCard and playCardAction handlers. -/
def lookupUser (db : DB) (username : String) : Option Nat :=
  (db.users.find? (fun u => u.username == username)).map (fun u => u.user_id)

/-- Step 1 of the joinGame and createCard handlers: look the username up
and on a miss INSERT INTO users and use the generated id. -/
def resolveUser (db : DB) (username : String) : Nat × DB :=
  match db.users.find? (fun u => u.username == username) with
  | some u => (u.user_id, db)
  | none =>
    let uid := db.nextUserId
    (uid, { db with
              users := db.users ++ [{ user_id := uid, username := username }],
              nextUserId := uid + 1 })

/-- Step 2 of the joinGame handler: look the session name up and on a miss
INSERT INTO game_sessions (gm_user_id, session_name) with the joining user
as game master, using the generated id. -/
def resolveSession (db : DB) (user_id : Nat) (sessionName : String) : Nat × DB :=
  match db.sessions.find? (fun s => s.session_name == sessionName) with
  | some s => (s.session_id, db)
  | none =>
    let sid := db.nextSessionId
    (sid, { db with
              sessions := db.sessions ++
                [{ session_id := sid, gm_user_id := user_id, session_name := sessionName }],
              nextSessionId := sid + 1 })

/-- INSERT INTO combat_log (session_id, user_id, card_id, action_type,
action_description); log_id and action_timestamp are store-generated. -/
def insertLog (db : DB) (sid uid cid : Nat) (atype desc : String) : DB :=
  { db with
      combatLog := db.combatLog ++
        [{ log_id := db.nextLogId, session_id := sid, user_id := uid, card_id := cid,
           action_type := atype, action_description := desc,
           action_timestamp := db.nextLogId }],
      nextLogId := db.nextLogId + 1 }

/-- The per-definition object of the allCardDefinitions snapshot array
(joinGame lines 125-131): only the five basic columns are projected. -/
def defSummary (c : CardRow) : JSObj :=
  [ ("card_id", CardRow.get c "card_id"),
    ("card_name", CardRow.get c "card_name"),
    ("card_type", CardRow.get c "card_type"),
    ("description", CardRow.get c "description"),
    ("power_level", CardRow.get c "power_level") ]

/-- The per-instance object of the snapshot cards array (joinGame lines
134-148), built from the merged pc-join-c row. The suit intellect and
rally entries read the row properties card_intellect_modifier and
card_rally_modifier, exactly as the source does. -/
def snapshotCard (pc : PlayerCardRow) (c : CardRow) : JSObj :=
  [ ("card_id", joinedGet pc c "card_id"),
    ("player_card_id", joinedGet pc c "player_card_id"),
    ("ownerId", joinedGet pc c "user_id"),
    ("location", joinedGet pc c "location"),
    ("slot_id", joinedGet pc c "slot_id"),
    ("is_active", joinedGet pc c "is_active"),
    ("card_name", joinedGet pc c "card_name"),
    ("card_type", joinedGet pc c "card_type"),
    ("description", joinedGet pc c "description"),
    ("power_level", joinedGet pc c "power_level"),
    ("card_hero_type", joinedGet pc c "card_hero_type"),
    ("card_hero_class", joinedGet pc c "card_hero_class"),
    ("card_hero_role", joinedGet pc c "card_hero_role"),
    ("card_ability_class_melee", joinedGet pc c "card_ability_class_melee"),
    ("card_ability_class_longrange", joinedGet pc c "card_ability_class_longrange"),
    ("card_ability_class_areaofeffect", joinedGet pc c "card_ability_class_areaofeffect"),
    ("card_ability_class_duration", joinedGet pc c "card_ability_class_duration"),
    ("card_ability_is_burst", joinedGet pc c "card_ability_is_burst"),
    ("card_ability_burst_link_action", joinedGet pc c "card_ability_burst_link_action"),
    ("card_ability_burst_effect", joinedGet pc c "card_ability_burst_effect"),
    ("card_suit_might_modifier", joinedGet pc c "card_suit_might_modifier"),
    ("card_suit_agility_modifier", joinedGet pc c "card_suit_agility_modifier"),
    ("card_suit_guts_modifier", joinedGet pc c "card_suit_guts_modifier"),
    ("card_suit_intellect_modifier", joinedGet pc c "card_intellect_modifier"),
    ("card_suit_rally_modifier", joinedGet pc c "card_rally_modifier"),
    ("card_weapon_damage", joinedGet pc c "card_weapon_damage"),
    ("card_weapon_range", joinedGet pc c "card_weapon_range"),
    ("card_weapon_effect_slot1", joinedGet pc c "card_weapon_effect_slot1"),
    ("card_weapon_effect_slot2", joinedGet pc c "card_weapon_effect_slot2"),
    ("card_weapon_effect_slot3", joinedGet pc c "card_weapon_effect_slot3") ]

/-- The per-entry object of the snapshot combatLog array (joinGame lines
149-151). -/
def logSummary (log : CombatLogRow) : JSObj :=
  [ ("logId", JSValue.vNum log.log_id),
    ("userId", JSValue.vNum log.user_id),
    ("cardId", JSValue.vNum log.card_id),
    ("actionType", JSValue.vStr log.action_type),
    ("actionDescription", JSValue.vStr log.action_description),
    ("timestamp", JSValue.vNum log.action_timestamp) ]

/-- SELECT pc.*, c.* FROM player_cards pc JOIN cards c ON pc.card_id =
c.card_id WHERE pc.session_id = ?: every instance of the session paired
with every definition of matching card_id (nested-loop join). -/
def sessionJoinedCards (db : DB) (sid : Nat) : List (PlayerCardRow × CardRow) :=
  (db.playerCards.filter (fun pc => pc.session_id == sid)).flatMap
    (fun pc => (db.cards.filter (fun c => c.card_id == pc.card_id)).map (fun c => (pc, c)))

/-- Same join filtered by pc.player_card_id = ? and taken at rows[0], as
the moveCard and playCardAction refetch does. -/
def refetchJoined (db : DB) (pcid : Nat) : Option (PlayerCardRow × CardRow) :=
  ((db.playerCards.filter (fun pc => pc.player_card_id == pcid)).flatMap
    (fun pc => (db.cards.filter (fun c => c.card_id == pc.card_id)).map (fun c => (pc, c)))).head?

/-- The client:joinGame handler (part_000 lines 62-168): resolve or create
the user and the session, join the room, fetch the catalog (first 50
definitions by card_id), the session's instances joined with their
definitions, and the session's combat log by ascending timestamp, emit the
snapshot to the joiner and the join notice to the rest of the room, then
create the player_sessions row if absent. -/
def joinGame (db : DB) (sessionName : String) (userId : String) : DB × List Emit :=
  let r1 := resolveUser db userId
  let user_id := r1.1
  let db1 := r1.2
  let r2 := resolveSession db1 user_id sessionName
  let sid := r2.1
  let db2 := r2.2
  let allCardDefinitions := (sortByKey (fun c => c.card_id) db2.cards).take 50
  let sessionPlayerCards := sessionJoinedCards db2 sid
  let combatLogEntries :=
    sortByKey (fun log => log.action_timestamp)
      (db2.combatLog.filter (fun log => log.session_id == sid))
  let gameState : GameState :=
    { sessionId := sid,
      sessionName := sessionName,
      players := [[("userId", JSValue.vStr userId), ("username", JSValue.vStr "TestUser")]],
      allCardDefinitions := allCardDefinitions.map defSummary,
      cards := sessionPlayerCards.map (fun pc => snapshotCard pc.1 pc.2),
      combatLog := combatLogEntries.map logSummary }
  let ems : List Emit :=
    [ { target := EmitTarget.toCaller, event := "server:gameState",
        payload := Payload.pGameState gameState },
      { target := EmitTarget.toRoomExceptCaller sid, event := "server:playerJoined",
        payload := Payload.pObj
          [("userId", JSValue.vStr userId), ("username", JSValue.vStr "TestUser")] } ]
  let db3 :=
    if (db2.playerSessions.find?
          (fun ps => ps.user_id == user_id && ps.session_id == sid)).isSome then db2
    else { db2 with
             playerSessions := db2.playerSessions ++ [{ user_id := user_id, session_id := sid }] }
  (db3, ems)

/-- Modelled from the spec: the player_cards table schema is not in the
repository, and the createCard INSERT omits the is_active column, so the
persisted value is the column default. Spec section 4.3 states a new
instance always starts inactive, so the default is modelled as false. -/
def isActiveColumnDefault : JSValue := JSValue.vBool false

/-- The 25 column-name/value pairs of the createCard INSERT INTO cards in
part_000 lines 187-204: the five common fields stored as supplied, every
optional field coerced with value || null. The suit intellect and rally
columns are filled from the cardData properties card_intellect_modifier
and card_rally_modifier, exactly as the source reads them. -/
def cardInsertCols (cardData : JSObj) : List (String × JSValue) :=
  [ ("card_name", cardData.get "card_name"),
    ("card_type", cardData.get "card_type"),
    ("description", cardData.get "description"),
    ("is_active", cardData.get "is_active"),
    ("power_level", cardData.get "power_level"),
    ("card_hero_type", (cardData.get "card_hero_type").orNull),
    ("card_hero_class", (cardData.get "card_hero_class").orNull),
    ("card_hero_role", (cardData.get "card_hero_role").orNull),
    ("card_ability_class_melee", (cardData.get "card_ability_class_melee").orNull),
    ("card_ability_class_longrange", (cardData.get "card_ability_class_longrange").orNull),
    ("card_ability_class_areaofeffect", (cardData.get "card_ability_class_areaofeffect").orNull),
    ("card_ability_class_duration", (cardData.get "card_ability_class_duration").orNull),
    ("card_ability_is_burst", (cardData.get "card_ability_is_burst").orNull),
    ("card_ability_burst_link_action", (cardData.get "card_ability_burst_link_action").orNull),
    ("card_ability_burst_effect", (cardData.get "card_ability_burst_effect").orNull),
    ("card_suit_might_modifier", (cardData.get "card_suit_might_modifier").orNull),
    ("card_suit_agility_modifier", (cardData.get "card_suit_agility_modifier").orNull),
    ("card_suit_guts_modifier", (cardData.get "card_suit_guts_modifier").orNull),
    ("card_suit_intellect_modifier", (cardData.get "card_intellect_modifier").orNull),
    ("card_suit_rally_modifier", (cardData.get "card_rally_modifier").orNull),
    ("card_weapon_damage", (cardData.get "card_weapon_damage").orNull),
    ("card_weapon_range", (cardData.get "card_weapon_range").orNull),
    ("card_weapon_effect_slot1", (cardData.get "card_weapon_effect_slot1").orNull),
    ("card_weapon_effect_slot2", (cardData.get "card_weapon_effect_slot2").orNull),
    ("card_weapon_effect_slot3", (cardData.get "card_weapon_effect_slot3").orNull) ]

/-- The client:createCard handler of part_000 (lines 171-243): resolve or
create the user, INSERT the definition, INSERT the instance into
player_cards with location CreatedCardStorage and slot_id null (is_active
not set by the statement), assemble the fullNewCard broadcast object with
the literal identity and location entries overridden by the spread of the
caller-supplied cardData, append the combat_log row, and broadcast
server:cardCreated to the whole session room. -/
def createCard (db : DB) (sessionId : Nat) (userId : String) (cardData : JSObj) :
    DB × List Emit :=
  let r1 := resolveUser db userId
  let user_id := r1.1
  let db1 := r1.2
  let newCardId := db1.nextCardId
  let newDef : CardRow := { card_id := newCardId, cols := cardInsertCols cardData }
  let db2 := { db1 with cards := db1.cards ++ [newDef], nextCardId := newCardId + 1 }
  let playerCardId := db2.nextPlayerCardId
  let newInst : PlayerCardRow :=
    { player_card_id := playerCardId, user_id := user_id,
      card_id := newCardId, session_id := sessionId,
      location := JSValue.vStr "CreatedCardStorage",
      slot_id := JSValue.vNull,
      is_active := isActiveColumnDefault }
  let db3 := { db2 with
                 playerCards := db2.playerCards ++ [newInst],
                 nextPlayerCardId := playerCardId + 1 }
  let fullNewCard : JSObj :=
    cardData ++
      [ ("card_id", JSValue.vNum newCardId),
        ("player_card_id", JSValue.vNum playerCardId),
        ("ownerId", JSValue.vStr userId),
        ("location", JSValue.vStr "CreatedCardStorage"),
        ("slot_id", JSValue.vNull),
        ("is_active", JSValue.vBool false) ]
  let db4 := insertLog db3 sessionId user_id newCardId "Card Created"
    (userId ++ " created card \"" ++ (cardData.get "card_name").jsString ++ "\"")
  (db4, [ { target := EmitTarget.toRoom sessionId, event := "server:cardCreated",
            payload := Payload.pObj fullNewCard } ])

/-- The 25 column-name/value pairs of the createCard INSERT in
src/server/index.js lines 30-51: identical to the part_000 version except
that the suit intellect and rally columns are filled from the correctly
spelled cardData properties. -/
def cardInsertColsIndexJs (cardData : JSObj) : List (String × JSValue) :=
  [ ("card_name", cardData.get "card_name"),
    ("card_type", cardData.get "card_type"),
    ("description", cardData.get "description"),
    ("is_active", cardData.get "is_active"),
    ("power_level", cardData.get "power_level"),
    ("card_hero_type", (cardData.get "card_hero_type").orNull),
    ("card_hero_class", (cardData.get "card_hero_class").orNull),
    ("card_hero_role", (cardData.get "card_hero_role").orNull),
    ("card_ability_class_melee", (cardData.get "card_ability_class_melee").orNull),
    ("card_ability_class_longrange", (cardData.get "card_ability_class_longrange").orNull),
    ("card_ability_class_areaofeffect", (cardData.get "card_ability_class_areaofeffect").orNull),
    ("card_ability_class_duration", (cardData.get "card_ability_class_duration").orNull),
    ("card_ability_is_burst", (cardData.get "card_ability_is_burst").orNull),
    ("card_ability_burst_link_action", (cardData.get "card_ability_burst_link_action").orNull),
    ("card_ability_burst_effect", (cardData.get "card_ability_burst_effect").orNull),
    ("card_suit_might_modifier", (cardData.get "card_suit_might_modifier").orNull),
    ("card_suit_agility_modifier", (cardData.get "card_suit_agility_modifier").orNull),
    ("card_suit_guts_modifier", (cardData.get "card_suit_guts_modifier").orNull),
    ("card_suit_intellect_modifier", (cardData.get "card_suit_intellect_modifier").orNull),
    ("card_suit_rally_modifier", (cardData.get "card_suit_rally_modifier").orNull),
    ("card_weapon_damage", (cardData.get "card_weapon_damage").orNull),
    ("card_weapon_range", (cardData.get "card_weapon_range").orNull),
    ("card_weapon_effect_slot1", (cardData.get "card_weapon_effect_slot1").orNull),
    ("card_weapon_effect_slot2", (cardData.get "card_weapon_effect_slot2").orNull),
    ("card_weapon_effect_slot3", (cardData.get "card_weapon_effect_slot3").orNull) ]

/-- The earlier client:createCard handler draft in src/server/index.js
(lines 11-86): same shape as the part_000 handler, with the correctly
spelled suit-modifier reads and a fullNewCard literal that carries no
player_card_id and no is_active entry. -/
def createCardIndexJs (db : DB) (sessionId : Nat) (userId : String) (cardData : JSObj) :
    DB × List Emit :=
  let r1 := resolveUser db userId
  let user_id := r1.1
  let db1 := r1.2
  let newCardId := db1.nextCardId
  let newDef : CardRow := { card_id := newCardId, cols := cardInsertColsIndexJs cardData }
  let db2 := { db1 with cards := db1.cards ++ [newDef], nextCardId := newCardId + 1 }
  let playerCardId := db2.nextPlayerCardId
  let newInst : PlayerCardRow :=
    { player_card_id := playerCardId, user_id := user_id,
      card_id := newCardId, session_id := sessionId,
      location := JSValue.vStr "CreatedCardStorage",
      slot_id := JSValue.vNull,
      is_active := isActiveColumnDefault }
  let db3 := { db2 with
                 playerCards := db2.playerCards ++ [newInst],
                 nextPlayerCardId := playerCardId + 1 }
  let fullNewCard : JSObj :=
    cardData ++
      [ ("card_id", JSValue.vNum newCardId),
        ("ownerId", JSValue.vStr userId),
        ("location", JSValue.vStr "CreatedCardStorage"),
        ("slot_id", JSValue.vNull) ]
  let db4 := insertLog db3 sessionId user_id newCardId "Card Created"
    (userId ++ " created card \"" ++ (cardData.get "card_name").jsString ++ "\"")
  (db4, [ { target := EmitTarget.toRoom sessionId, event := "server:cardCreated",
            payload := Payload.pObj fullNewCard } ])

/-- WHERE clause of the move and play UPDATE statements: player_card_id = ?
AND user_id = ? AND session_id = ?. -/
def matchesTriple (pcid uid sid : Nat) (r : PlayerCardRow) : Bool :=
  r.player_card_id == pcid && r.user_id == uid && r.session_id == sid

/-- The server:cardMoved broadcast object (part_000 lines 289-308), built
from the refetched merged row. The suit guts, intellect and rally entries
read the row properties card_guts_modifier, card_intellect_modifier and
card_rally_modifier, exactly as the source does. -/
def movePayload (userId : String) (pc : PlayerCardRow) (c : CardRow)
    (oldLocation : JSValue) : JSObj :=
  [ ("card_id", joinedGet pc c "card_id"),
    ("player_card_id", joinedGet pc c "player_card_id"),
    ("ownerId", JSValue.vStr userId),
    ("location", joinedGet pc c "location"),
    ("slot_id", joinedGet pc c "slot_id"),
    ("is_active", joinedGet pc c "is_active"),
    ("card_name", joinedGet pc c "card_name"),
    ("card_type", joinedGet pc c "card_type"),
    ("description", joinedGet pc c "description"),
    ("power_level", joinedGet pc c "power_level"),
    ("card_hero_type", joinedGet pc c "card_hero_type"),
    ("card_hero_class", joinedGet pc c "card_hero_class"),
    ("card_hero_role", joinedGet pc c "card_hero_role"),
    ("card_ability_class_melee", joinedGet pc c "card_ability_class_melee"),
    ("card_ability_class_longrange", joinedGet pc c "card_ability_class_longrange"),
    ("card_ability_class_areaofeffect", joinedGet pc c "card_ability_class_areaofeffect"),
    ("card_ability_class_duration", joinedGet pc c "card_ability_class_duration"),
    ("card_ability_is_burst", joinedGet pc c "card_ability_is_burst"),
    ("card_ability_burst_link_action", joinedGet pc c "card_ability_burst_link_action"),
    ("card_ability_burst_effect", joinedGet pc c "card_ability_burst_effect"),
    ("card_suit_might_modifier", joinedGet pc c "card_suit_might_modifier"),
    ("card_suit_agility_modifier", joinedGet pc c "card_suit_agility_modifier"),
    ("card_suit_guts_modifier", joinedGet pc c "card_guts_modifier"),
    ("card_suit_intellect_modifier", joinedGet pc c "card_intellect_modifier"),
    ("card_suit_rally_modifier", joinedGet pc c "card_rally_modifier"),
    ("card_weapon_damage", joinedGet pc c "card_weapon_damage"),
    ("card_weapon_range", joinedGet pc c "card_weapon_range"),
    ("card_weapon_effect_slot1", joinedGet pc c "card_weapon_effect_slot1"),
    ("card_weapon_effect_slot2", joinedGet pc c "card_weapon_effect_slot2"),
    ("card_weapon_effect_slot3", joinedGet pc c "card_weapon_effect_slot3"),
    ("oldLocation", oldLocation) ]

/-- The server:cardPlayed broadcast object (part_000 lines 372-390); here
the suit agility, guts, intellect and rally entries read the row
properties card_agility_modifier, card_guts_modifier,
card_intellect_modifier and card_rally_modifier, as the source does. -/
def playPayload (userId : String) (pc : PlayerCardRow) (c : CardRow)
    (oldLocation : JSValue) : JSObj :=
  [ ("card_id", joinedGet pc c "card_id"),
    ("player_card_id", joinedGet pc c "player_card_id"),
    ("ownerId", JSValue.vStr userId),
    ("location", joinedGet pc c "location"),
    ("slot_id", joinedGet pc c "slot_id"),
    ("is_active", joinedGet pc c "is_active"),
    ("card_name", joinedGet pc c "card_name"),
    ("card_type", joinedGet pc c "card_type"),
    ("description", joinedGet pc c "description"),
    ("power_level", joinedGet pc c "power_level"),
    ("card_hero_type", joinedGet pc c "card_hero_type"),
    ("card_hero_class", joinedGet pc c "card_hero_class"),
    ("card_hero_role", joinedGet pc c "card_hero_role"),
    ("card_ability_class_melee", joinedGet pc c "card_ability_class_melee"),
    ("card_ability_class_longrange", joinedGet pc c "card_ability_class_longrange"),
    ("card_ability_class_areaofeffect", joinedGet pc c "card_ability_class_areaofeffect"),
    ("card_ability_class_duration", joinedGet pc c "card_ability_class_duration"),
    ("card_ability_is_burst", joinedGet pc c "card_ability_is_burst"),
    ("card_ability_burst_link_action", joinedGet pc c "card_ability_burst_link_action"),
    ("card_ability_burst_effect", joinedGet pc c "card_ability_burst_effect"),
    ("card_suit_might_modifier", joinedGet pc c "card_suit_might_modifier"),
    ("card_suit_agility_modifier", joinedGet pc c "card_agility_modifier"),
    ("card_suit_guts_modifier", joinedGet pc c "card_guts_modifier"),
    ("card_suit_intellect_modifier", joinedGet pc c "card_intellect_modifier"),
    ("card_suit_rally_modifier", joinedGet pc c "card_rally_modifier"),
    ("card_weapon_damage", joinedGet pc c "card_weapon_damage"),
    ("card_weapon_range", joinedGet pc c "card_weapon_range"),
    ("card_weapon_effect_slot1", joinedGet pc c "card_weapon_effect_slot1"),
    ("card_weapon_effect_slot2", joinedGet pc c "card_weapon_effect_slot2"),
    ("card_weapon_effect_slot3", joinedGet pc c "card_weapon_effect_slot3"),
    ("oldLocation", oldLocation) ]

/-- The client:moveCard handler (part_000 lines 246-326). The user lookup
does not lazily create: a miss emits an error and returns. The UPDATE is
scoped by the (player_card_id, user_id, session_id) triple; zero affected
rows emit an error and return with nothing else done. On success the
handler refetches the instance joined with its definition, appends the
combat_log row and broadcasts server:cardMoved to the whole room. -/
def moveCard (db : DB) (sessionId : Nat) (userId : String) (playerCardId : Nat)
    (oldLocation destinationLocation destinationSlotId isActive : JSValue) :
    DB × List Emit :=
  match lookupUser db userId with
  | none =>
    (db, [ { target := EmitTarget.toCaller, event := "error",
             payload := Payload.pStr "User not authenticated for card move." } ])
  | some user_id =>
    let affected := db.playerCards.countP (matchesTriple playerCardId user_id sessionId)
    let db1 := { db with
                   playerCards := db.playerCards.map (fun r =>
                     if matchesTriple playerCardId user_id sessionId r then
                       { r with location := destinationLocation,
                                slot_id := destinationSlotId,
                                is_active := isActive }
                     else r) }
    if affected == 0 then
      (db1, [ { target := EmitTarget.toCaller, event := "error",
                payload := Payload.pStr
                  "Failed to move card (card not found or permission denied)." } ])
    else
      match refetchJoined db1 playerCardId with
      | none =>
        (db1, [ { target := EmitTarget.toCaller, event := "error",
                  payload := Payload.pStr "Failed to retrieve moved card data." } ])
      | some pcc =>
        let payload := movePayload userId pcc.1 pcc.2 oldLocation
        let db2 := insertLog db1 sessionId user_id pcc.2.card_id "Card Moved"
          (userId ++ " moved card \"" ++ (joinedGet pcc.1 pcc.2 "card_name").jsString ++
            "\" from " ++ oldLocation.jsString ++ " to " ++ destinationLocation.jsString)
        (db2, [ { target := EmitTarget.toRoom sessionId, event := "server:cardMoved",
                  payload := Payload.pObj payload } ])

/-- The client:playCardAction handler (part_000 lines 329-407): identical
shape to moveCard with the UPDATE values fixed to location DiscardPile,
slot_id NULL and is_active false. -/
def playCardAction (db : DB) (sessionId : Nat) (userId : String) (playerCardId : Nat)
    (oldLocation : JSValue) : DB × List Emit :=
  match lookupUser db userId with
  | none =>
    (db, [ { target := EmitTarget.toCaller, event := "error",
             payload := Payload.pStr "User not authenticated for playing card." } ])
  | some user_id =>
    let affected := db.playerCards.countP (matchesTriple playerCardId user_id sessionId)
    let db1 := { db with
                   playerCards := db.playerCards.map (fun r =>
                     if matchesTriple playerCardId user_id sessionId r then
                       { r with location := JSValue.vStr "DiscardPile",
                                slot_id := JSValue.vNull,
                                is_active := JSValue.vBool false }
                     else r) }
    if affected == 0 then
      (db1, [ { target := EmitTarget.toCaller, event := "error",
                payload := Payload.pStr
                  "Failed to play card (card not found or permission denied)." } ])
    else
      match refetchJoined db1 playerCardId with
      | none =>
        (db1, [ { target := EmitTarget.toCaller, event := "error",
                  payload := Payload.pStr "Failed to retrieve played card data." } ])
      | some pcc =>
        let payload := playPayload userId pcc.1 pcc.2 oldLocation
        let db2 := insertLog db1 sessionId user_id pcc.2.card_id "Card Played"
          (userId ++ " played card \"" ++ (joinedGet pcc.1 pcc.2 "card_name").jsString ++
            "\" from " ++ oldLocation.jsString ++ " to DiscardPile")
        (db2, [ { target := EmitTarget.toRoom sessionId, event := "server:cardPlayed",
                  payload := Payload.pObj payload } ])

/-- The snapshot GameState carried by the first emit of a handler result,
when present. -/
def gameStateOf (ems : List Emit) : Option GameState :=
  match ems with
  | { payload := Payload.pGameState g, target := _, event := _ } :: _ => some g
  | _ => none

/-- The object payload carried by the first emit of a handler result; the
empty object when the first emit is not an object payload. -/
def broadcastObj (ems : List Emit) : JSObj :=
  match ems with
  | { payload := Payload.pObj o, target := _, event := _ } :: _ => o
  | _ => []

/-- cardData of a suit card supplying (correctly spelled) intellect and
rally modifiers, used as a concrete test input. -/
def suitDefData : JSObj :=
  [ ("card_name", JSValue.vStr "Suit of Mind"),
    ("card_type", JSValue.vStr "Suit"),
    ("description", JSValue.vStr "a suit card"),
    ("is_active", JSValue.vBool false),
    ("power_level", JSValue.vNum 1),
    ("card_suit_intellect_modifier", JSValue.vNum 3),
    ("card_suit_rally_modifier", JSValue.vNum 2) ]

/-- A persisted definition row for suitDefData with all 25 columns filled
the way the src/server/index.js INSERT fills them (suit intellect stored
as 3, suit rally as 2). -/
def suitCardRow : CardRow :=
  { card_id := 1, cols := cardInsertColsIndexJs suitDefData }

/-- A persisted instance of suitCardRow owned by user 2 (bob) in session 1,
sitting active on a battlefield slot. -/
def pcBob : PlayerCardRow :=
  { player_card_id := 1, user_id := 2, card_id := 1, session_id := 1,
    location := JSValue.vStr "Battlefield", slot_id := JSValue.vNum 3,
    is_active := JSValue.vBool true }

/-- Concrete store with two users, one session owned by alice, one card
definition and one instance of it owned by bob. -/
def dbBase : DB :=
  { users := [{ user_id := 1, username := "alice" }, { user_id := 2, username := "bob" }],
    sessions := [{ session_id := 1, gm_user_id := 1, session_name := "arena" }],
    playerSessions := [],
    cards := [suitCardRow],
    playerCards := [pcBob],
    combatLog := [],
    nextUserId := 3, nextSessionId := 2, nextCardId := 2,
    nextPlayerCardId := 2, nextLogId := 1 }

/-- cardData whose caller-supplied active flag is true, used to exercise
the createCard broadcast merge. -/
def activeCardData : JSObj :=
  [ ("card_name", JSValue.vStr "Fire Bolt"),
    ("card_type", JSValue.vStr "Ability"),
    ("description", JSValue.vStr "zap"),
    ("is_active", JSValue.vBool true),
    ("power_level", JSValue.vNum 2),
    ("card_weapon_damage", JSValue.vNum 0) ]

theorem map_ite_eq_self_of_countP_zero {α : Type} {p : α → Bool} {f : α → α} {l : List α}
    (h : l.countP p = 0) : (l.map fun a => if p a then f a else a) = l := by
  have h' := List.countP_eq_zero.mp h
  calc (l.map fun a => if p a then f a else a) = l.map id := by
        apply List.map_congr_left
        intro a ha
        simp [h' a ha]
    _ = l := List.map_id l

theorem JSObj.get_append_left {o1 o2 : JSObj} {k : String} (h : o1.hasKey k = true) :
    JSObj.get (o1 ++ o2) k = JSObj.get o1 k := by
  unfold JSObj.get
  rw [List.find?_append]
  unfold JSObj.hasKey at h
  cases h0 : o1.find? (fun p => p.1 == k) with
  | none => rw [h0] at h; simp at h
  | some p => rfl

theorem JSObj.get_append_right {o1 o2 : JSObj} {k : String} (h : o1.hasKey k = false) :
    JSObj.get (o1 ++ o2) k = JSObj.get o2 k := by
  unfold JSObj.get
  rw [List.find?_append]
  unfold JSObj.hasKey at h
  cases h0 : o1.find? (fun p => p.1 == k) with
  | none => rfl
  | some p => rw [h0] at h; simp at h

/-- C1: a moveCard request whose (instance id, resolved user id, supplied
session id) triple matches no player_cards row is answered by a single
error emit to the caller, the store is left exactly as it was (no instance
update, no combat_log append), and nothing is broadcast to the room. -/
theorem moveCard_reject_no_mutation_no_broadcast
    (db : DB) (sessionId : Nat) (userId : String) (playerCardId : Nat)
    (oldL dstL dstS act : JSValue) (uid : Nat)
    (hu : lookupUser db userId = some uid)
    (hz : db.playerCards.countP (matchesTriple playerCardId uid sessionId) = 0) :
    moveCard db sessionId userId playerCardId oldL dstL dstS act =
      (db, [ { target := EmitTarget.toCaller, event := "error",
               payload := Payload.pStr
                 "Failed to move card (card not found or permission denied)." } ]) := by
  have hmap := map_ite_eq_self_of_countP_zero
    (f := fun r => { r with location := dstL, slot_id := dstS, is_active := act }) hz
  simp only [moveCard, hu, hz, hmap]
  rfl

/-- C1 witness: alice (user id 1) tries to move instance 1, which belongs
to bob in session 1; the request is rejected with one error emit and the
store is unchanged. -/
theorem moveCard_reject_no_mutation_no_broadcast_witness :
    moveCard dbBase 1 "alice" 1 (JSValue.vStr "Battlefield") (JSValue.vStr "Hand")
        JSValue.vNull (JSValue.vBool false) =
      (dbBase, [ { target := EmitTarget.toCaller, event := "error",
                   payload := Payload.pStr
                     "Failed to move card (card not found or permission denied)." } ]) :=
  moveCard_reject_no_mutation_no_broadcast dbBase 1 "alice" 1
    (JSValue.vStr "Battlefield") (JSValue.vStr "Hand") JSValue.vNull (JSValue.vBool false)
    1 (by decide) (by decide)

theorem playCardAction_playerCards_eq
    (db : DB) (sessionId : Nat) (userId : String) (playerCardId : Nat)
    (oldL : JSValue) (uid : Nat)
    (hu : lookupUser db userId = some uid)
    (hm : db.playerCards.countP (matchesTriple playerCardId uid sessionId) ≠ 0) :
    (playCardAction db sessionId userId playerCardId oldL).1.playerCards =
      db.playerCards.map (fun r =>
        if matchesTriple playerCardId uid sessionId r then
          { r with location := JSValue.vStr "DiscardPile", slot_id := JSValue.vNull,
                   is_active := JSValue.vBool false }
        else r) := by
  have hb : (db.playerCards.countP (matchesTriple playerCardId uid sessionId) == 0) = false := by
    simpa using hm
  simp only [playCardAction, hu, hb, Bool.false_eq_true, if_false]
  cases hr : refetchJoined
      { db with playerCards := db.playerCards.map (fun r =>
          if matchesTriple playerCardId uid sessionId r then
            { r with location := JSValue.vStr "DiscardPile", slot_id := JSValue.vNull,
                     is_active := JSValue.vBool false }
          else r) } playerCardId with
  | none => simp only [hr]
  | some pcc => simp only [hr, insertLog]

/-- C2: a successful playCardAction on an instance owned by the resolved
user in the supplied session leaves every matching persisted player_cards
row with location DiscardPile, slot_id NULL and is_active false, whatever
its prior location, slot or active flag were; at least one such row
exists afterwards. -/
theorem playCardAction_forces_discard
    (db : DB) (sessionId : Nat) (userId : String) (playerCardId : Nat)
    (oldL : JSValue) (uid : Nat)
    (hu : lookupUser db userId = some uid)
    (hm : 0 < db.playerCards.countP (matchesTriple playerCardId uid sessionId)) :
    (∃ r ∈ (playCardAction db sessionId userId playerCardId oldL).1.playerCards,
        matchesTriple playerCardId uid sessionId r = true) ∧
    ∀ r ∈ (playCardAction db sessionId userId playerCardId oldL).1.playerCards,
      matchesTriple playerCardId uid sessionId r = true →
        r.location = JSValue.vStr "DiscardPile" ∧ r.slot_id = JSValue.vNull ∧
          r.is_active = JSValue.vBool false := by
  rw [playCardAction_playerCards_eq db sessionId userId playerCardId oldL uid hu
    (Nat.pos_iff_ne_zero.mp hm)]
  constructor
  · obtain ⟨r, hr, hp⟩ := List.countP_pos_iff.mp hm
    refine ⟨_, List.mem_map_of_mem _ hr, ?_⟩
    rw [if_pos hp]
    exact hp
  · intro r' hr' hmt
    obtain ⟨r, hr, heq⟩ := List.mem_map.mp hr'
    by_cases hp : matchesTriple playerCardId uid sessionId r = true
    · rw [if_pos hp] at heq
      subst heq
      exact ⟨rfl, rfl, rfl⟩
    · rw [if_neg hp] at heq
      subst heq
      exact absurd hmt hp

/-- C2 witness: bob (user id 2) plays instance 1, which he owns in session
1 and which sits active on a battlefield slot; afterwards the persisted
row is in DiscardPile with null slot and inactive. -/
theorem playCardAction_forces_discard_witness :
    (∃ r ∈ (playCardAction dbBase 1 "bob" 1 (JSValue.vStr "Battlefield")).1.playerCards,
        matchesTriple 1 2 1 r = true) ∧
    ∀ r ∈ (playCardAction dbBase 1 "bob" 1 (JSValue.vStr "Battlefield")).1.playerCards,
      matchesTriple 1 2 1 r = true →
        r.location = JSValue.vStr "DiscardPile" ∧ r.slot_id = JSValue.vNull ∧
          r.is_active = JSValue.vBool false :=
  playCardAction_forces_discard dbBase 1 "bob" 1 (JSValue.vStr "Battlefield") 2
    (by decide) (by decide)

/-- C3: the joinGame snapshot does not carry the correct suit intellect
and rally modifier values of a joined definition. Concretely, suitCardRow
stores 3 and 2 in the card_suit_intellect_modifier and
card_suit_rally_modifier columns, yet the snapshot object for its instance
carries undefined for both, because the handler maps them from the
nonexistent row properties card_intellect_modifier and
card_rally_modifier. -/
theorem joinGame_snapshot_suit_modifier_mismatch :
    CardRow.get suitCardRow "card_suit_intellect_modifier" = JSValue.vNum 3 ∧
    CardRow.get suitCardRow "card_suit_rally_modifier" = JSValue.vNum 2 ∧
    (gameStateOf (joinGame dbBase "arena" "alice").2).map
        (fun g => g.cards.map (fun o => JSObj.get o "card_suit_intellect_modifier")) =
      some [JSValue.vUndefined] ∧
    (gameStateOf (joinGame dbBase "arena" "alice").2).map
        (fun g => g.cards.map (fun o => JSObj.get o "card_suit_rally_modifier")) =
      some [JSValue.vUndefined] :=
  ⟨rfl, rfl, rfl, rfl⟩

/-- C4 (amended): a createCard request persists the new instance with
location CreatedCardStorage and slot_id NULL, and (with the is_active
column default modelled as false per the spec) is_active false; the
broadcast payload carries location CreatedCardStorage and slot_id NULL
whenever the caller-supplied cardData has no such keys, but its is_active
entry is the caller-supplied active flag echoed back by the cardData
spread — the literal false is overridden whenever cardData carries an
is_active key. -/
theorem createCard_initial_state
    (db : DB) (sessionId : Nat) (userId : String) (cardData : JSObj)
    (hloc : cardData.hasKey "location" = false)
    (hslot : cardData.hasKey "slot_id" = false) :
    (∃ pc : PlayerCardRow,
        (createCard db sessionId userId cardData).1.playerCards = db.playerCards ++ [pc] ∧
        pc.location = JSValue.vStr "CreatedCardStorage" ∧
        pc.slot_id = JSValue.vNull ∧ pc.is_active = JSValue.vBool false) ∧
    JSObj.get (broadcastObj (createCard db sessionId userId cardData).2) "location" =
      JSValue.vStr "CreatedCardStorage" ∧
    JSObj.get (broadcastObj (createCard db sessionId userId cardData).2) "slot_id" =
      JSValue.vNull ∧
    JSObj.get (broadcastObj (createCard db sessionId userId cardData).2) "is_active" =
      (if cardData.hasKey "is_active" then JSObj.get cardData "is_active"
       else JSValue.vBool false) := by
  cases h : db.users.find? (fun u => u.username == userId) with
  | none =>
    simp only [createCard, resolveUser, h, broadcastObj]
    refine ⟨⟨_, rfl, rfl, rfl, rfl⟩, ?_, ?_, ?_⟩
    · rw [JSObj.get_append_right hloc]
      rfl
    · rw [JSObj.get_append_right hslot]
      rfl
    · by_cases hact : cardData.hasKey "is_active" = true
      · rw [JSObj.get_append_left hact, if_pos hact]
      · rw [JSObj.get_append_right (Bool.not_eq_true _ ▸ hact), if_neg hact]
        rfl
  | some u =>
    simp only [createCard, resolveUser, h, broadcastObj]
    refine ⟨⟨_, rfl, rfl, rfl, rfl⟩, ?_, ?_, ?_⟩
    · rw [JSObj.get_append_right hloc]
      rfl
    · rw [JSObj.get_append_right hslot]
      rfl
    · by_cases hact : cardData.hasKey "is_active" = true
      · rw [JSObj.get_append_left hact, if_pos hact]
      · rw [JSObj.get_append_right (Bool.not_eq_true _ ▸ hact), if_neg hact]
        rfl

/-- C4 witness: alice creates activeCardData (which has no location or
slot_id key and an is_active key set to true); the persisted instance is
in CreatedCardStorage with null slot and inactive, the broadcast carries
the same location and slot and echoes is_active true. -/
theorem createCard_initial_state_witness :
    (∃ pc : PlayerCardRow,
        (createCard dbBase 1 "alice" activeCardData).1.playerCards =
          dbBase.playerCards ++ [pc] ∧
        pc.location = JSValue.vStr "CreatedCardStorage" ∧
        pc.slot_id = JSValue.vNull ∧ pc.is_active = JSValue.vBool false) ∧
    JSObj.get (broadcastObj (createCard dbBase 1 "alice" activeCardData).2) "location" =
      JSValue.vStr "CreatedCardStorage" ∧
    JSObj.get (broadcastObj (createCard dbBase 1 "alice" activeCardData).2) "slot_id" =
      JSValue.vNull ∧
    JSObj.get (broadcastObj (createCard dbBase 1 "alice" activeCardData).2) "is_active" =
      (if activeCardData.hasKey "is_active" then JSObj.get activeCardData "is_active"
       else JSValue.vBool false) :=
  createCard_initial_state dbBase 1 "alice" activeCardData (by decide) (by decide)

/-- C4 counterexample: with a caller-supplied active flag of true, the
server:cardCreated broadcast carries is_active true, not the false the
claim requires. -/
theorem createCard_broadcast_active_not_false :
    JSObj.get (broadcastObj (createCard dbBase 1 "alice" activeCardData).2) "is_active" =
      JSValue.vBool true ∧
    JSValue.vBool true ≠ JSValue.vBool false :=
  ⟨rfl, by decide⟩

/-- C5 (amended): joinGame and createCard resolve an unknown username by
lazily inserting a users row (with the generated id) and proceeding, but
moveCard and playCardAction treat an unknown username as an error: they
emit a single error event to the caller and abort with no row of any
table mutated. -/
theorem username_resolution_split :
    (∀ (db : DB) (sessionName userId : String),
        db.users.find? (fun u => u.username == userId) = none →
        (joinGame db sessionName userId).1.users =
          db.users ++ [{ user_id := db.nextUserId, username := userId }]) ∧
    (∀ (db : DB) (sessionId : Nat) (userId : String) (cardData : JSObj),
        db.users.find? (fun u => u.username == userId) = none →
        (createCard db sessionId userId cardData).1.users =
          db.users ++ [{ user_id := db.nextUserId, username := userId }]) ∧
    (∀ (db : DB) (sessionId : Nat) (userId : String) (playerCardId : Nat)
        (oldL dstL dstS act : JSValue),
        lookupUser db userId = none →
        moveCard db sessionId userId playerCardId oldL dstL dstS act =
          (db, [ { target := EmitTarget.toCaller, event := "error",
                   payload := Payload.pStr "User not authenticated for card move." } ])) ∧
    (∀ (db : DB) (sessionId : Nat) (userId : String) (playerCardId : Nat)
        (oldL : JSValue),
        lookupUser db userId = none →
        playCardAction db sessionId userId playerCardId oldL =
          (db, [ { target := EmitTarget.toCaller, event := "error",
                   payload := Payload.pStr "User not authenticated for playing card." } ])) := by
  refine ⟨?_, ?_, ?_, ?_⟩
  · intro db sessionName userId h
    simp only [joinGame, resolveUser, resolveSession, h]
    cases h2 : db.sessions.find? (fun s => s.session_name == sessionName) <;>
      simp only [h2] <;> split <;> rfl
  · intro db sessionId userId cardData h
    simp only [createCard, resolveUser, h, insertLog]
  · intro db sessionId userId playerCardId oldL dstL dstS act h
    simp only [moveCard, h]
  · intro db sessionId userId playerCardId oldL h
    simp only [playCardAction, h]

/-- C5 witness: the username ghost is unknown in dbBase; a joinGame for
ghost inserts a users row with the next generated id, while a moveCard
for ghost is answered by the authentication error alone. -/
theorem username_resolution_split_witness :
    (joinGame dbBase "arena" "ghost").1.users =
      dbBase.users ++ [{ user_id := dbBase.nextUserId, username := "ghost" }] ∧
    moveCard dbBase 1 "ghost" 1 (JSValue.vStr "Battlefield") (JSValue.vStr "Hand")
        JSValue.vNull (JSValue.vBool false) =
      (dbBase, [ { target := EmitTarget.toCaller, event := "error",
                   payload := Payload.pStr "User not authenticated for card move." } ]) :=
  ⟨username_resolution_split.1 dbBase "arena" "ghost" (by decide),
   username_resolution_split.2.2.1 dbBase 1 "ghost" 1 (JSValue.vStr "Battlefield")
     (JSValue.vStr "Hand") JSValue.vNull (JSValue.vBool false) (by decide)⟩

/-- C5 counterexample: a moveCard request citing the unknown username
ghost is answered by an error emit and the whole store is left unchanged
(in particular no users row is inserted), refuting the claim that a
lookup miss is never treated as an error and never aborts the operation
in every username-resolving handler. -/
theorem moveCard_unknown_user_errors :
    moveCard dbBase 1 "ghost" 7 (JSValue.vStr "Battlefield") (JSValue.vStr "Hand")
        JSValue.vNull (JSValue.vBool false) =
      (dbBase, [ { target := EmitTarget.toCaller, event := "error",
                   payload := Payload.pStr "User not authenticated for card move." } ]) ∧
    (moveCard dbBase 1 "ghost" 7 (JSValue.vStr "Battlefield") (JSValue.vStr "Hand")
        JSValue.vNull (JSValue.vBool false)).1.users = dbBase.users :=
  ⟨rfl, rfl⟩

/-- C6: the lookup-or-insert user resolution step is idempotent under
sequential execution: starting from a store with at most one users row for
the username, resolving twice in sequence returns the same generated or
found id both times, the second call changes nothing, and exactly one
users row for that username exists after the first call. -/
theorem resolveUser_idempotent
    (db : DB) (username : String)
    (h : db.users.countP (fun u => u.username == username) ≤ 1) :
    (resolveUser (resolveUser db username).2 username).1 = (resolveUser db username).1 ∧
    (resolveUser (resolveUser db username).2 username).2 = (resolveUser db username).2 ∧
    (resolveUser db username).2.users.countP (fun u => u.username == username) = 1 := by
  cases h0 : db.users.find? (fun u => u.username == username) with
  | some u0 =>
    have hp := List.find?_some h0
    have hm := List.mem_of_find?_eq_some h0
    have hpos : 0 < db.users.countP (fun u => u.username == username) :=
      List.countP_pos_iff.mpr ⟨u0, hm, hp⟩
    refine ⟨?_, ?_, ?_⟩
    · simp only [resolveUser, h0]
    · simp only [resolveUser, h0]
    · simp only [resolveUser, h0]
      omega
  | none =>
    have hz : db.users.countP (fun u => u.username == username) = 0 :=
      List.countP_eq_zero.mpr (List.find?_eq_none.mp h0)
    have hfind2 : (db.users ++
          [({ user_id := db.nextUserId, username := username } : UserRow)]).find?
        (fun u => u.username == username) =
        some { user_id := db.nextUserId, username := username } := by
      rw [List.find?_append, h0]
      simp
    refine ⟨?_, ?_, ?_⟩
    · simp only [resolveUser, h0, hfind2]
    · simp only [resolveUser, h0, hfind2]
    · simp only [resolveUser, h0]
      rw [List.countP_append, hz]
      simp

/-- C6 witness: resolving the unknown username carol on dbBase twice in
sequence returns the same id both times, the second call changes nothing,
and exactly one carol row exists after the first call. -/
theorem resolveUser_idempotent_witness :
    (resolveUser (resolveUser dbBase "carol").2 "carol").1 =
      (resolveUser dbBase "carol").1 ∧
    (resolveUser (resolveUser dbBase "carol").2 "carol").2 =
      (resolveUser dbBase "carol").2 ∧
    (resolveUser dbBase "carol").2.users.countP (fun u => u.username == "carol") = 1 :=
  resolveUser_idempotent dbBase "carol" (by decide)

/-- C7: session resolution is keyed by the session name: resolving the
same name twice in sequence (by any two users) returns the same numeric
session id both times and the second call changes nothing; and when the
name is unseen the first call appends exactly one game_sessions row
carrying the first joining user as gm_user_id. -/
theorem resolveSession_keyed_by_name
    (db : DB) (u1 u2 : Nat) (sessionName : String) :
    (resolveSession (resolveSession db u1 sessionName).2 u2 sessionName).1 =
      (resolveSession db u1 sessionName).1 ∧
    (resolveSession (resolveSession db u1 sessionName).2 u2 sessionName).2 =
      (resolveSession db u1 sessionName).2 ∧
    (db.sessions.find? (fun s => s.session_name == sessionName) = none →
      (resolveSession db u1 sessionName).2.sessions =
        db.sessions ++ [{ session_id := db.nextSessionId, gm_user_id := u1,
                          session_name := sessionName }]) := by
  cases h0 : db.sessions.find? (fun s => s.session_name == sessionName) with
  | some s0 =>
    refine ⟨?_, ?_, ?_⟩
    · simp only [resolveSession, h0]
    · simp only [resolveSession, h0]
    · intro hc
      exact absurd hc (by simp)
  | none =>
    have hfind2 : (db.sessions ++
          [({ session_id := db.nextSessionId, gm_user_id := u1,
              session_name := sessionName } : GameSessionRow)]).find?
        (fun s => s.session_name == sessionName) =
        some { session_id := db.nextSessionId, gm_user_id := u1,
               session_name := sessionName } := by
      rw [List.find?_append, h0]
      simp
    refine ⟨?_, ?_, ?_⟩
    · simp only [resolveSession, h0, hfind2]
    · simp only [resolveSession, h0, hfind2]
    · intro hc
      simp only [resolveSession, h0]

/-- C7 witness: the name table-7 is unseen in dbBase; two sequential joins
(user 1 then user 2) resolve it to the same generated session id, the
second call changes nothing, and the first call creates the row with user
1 as game master. -/
theorem resolveSession_keyed_by_name_witness :
    (resolveSession (resolveSession dbBase 1 "table-7").2 2 "table-7").1 =
      (resolveSession dbBase 1 "table-7").1 ∧
    (resolveSession (resolveSession dbBase 1 "table-7").2 2 "table-7").2 =
      (resolveSession dbBase 1 "table-7").2 ∧
    (dbBase.sessions.find? (fun s => s.session_name == "table-7") = none →
      (resolveSession dbBase 1 "table-7").2.sessions =
        dbBase.sessions ++ [{ session_id := dbBase.nextSessionId, gm_user_id := 1,
                              session_name := "table-7" }]) :=
  resolveSession_keyed_by_name dbBase 1 2 "table-7"

/-- C8: for every property the caller-supplied cardData carries, the
server:cardCreated broadcast object carries exactly the supplied value —
the payload is the literal identity and location entries overridden by
the spread of cardData, never a refetch of the persisted row; so wherever
the persisted column value differs from the supplied one (for example a
falsy optional field coerced to NULL on insert), the broadcast still
carries the supplied value. -/
theorem createCard_broadcast_echoes_cardData
    (db : DB) (sessionId : Nat) (userId : String) (cardData : JSObj) (k : String)
    (hk : cardData.hasKey k = true) :
    JSObj.get (broadcastObj (createCard db sessionId userId cardData).2) k =
      JSObj.get cardData k := by
  cases h : db.users.find? (fun u => u.username == userId) with
  | none =>
    simp only [createCard, resolveUser, h, broadcastObj]
    exact JSObj.get_append_left hk
  | some u =>
    simp only [createCard, resolveUser, h, broadcastObj]
    exact JSObj.get_append_left hk

/-- C8 witness: activeCardData supplies card_weapon_damage 0 (falsy, so
the insert persists NULL for that column), yet the broadcast carries the
supplied 0. -/
theorem createCard_broadcast_echoes_cardData_witness :
    JSObj.get (broadcastObj (createCard dbBase 1 "alice" activeCardData).2)
        "card_weapon_damage" =
      JSObj.get activeCardData "card_weapon_damage" :=
  createCard_broadcast_echoes_cardData dbBase 1 "alice" activeCardData
    "card_weapon_damage" (by decide)

/-- C9: every joinGame emits exactly two events: the server:gameState
snapshot addressed to the calling connection alone, and the
server:playerJoined notice addressed to the session room excluding the
caller; under room delivery the snapshot reaches only the joiner, and the
notice reaches every other member of the room and never the joiner. -/
theorem joinGame_emit_targets
    (db : DB) (sessionName userId : String) (sock : Nat) (members : List Nat) :
    ∃ gs pj sid,
      (joinGame db sessionName userId).2 =
        [ { target := EmitTarget.toCaller, event := "server:gameState",
            payload := Payload.pGameState gs },
          { target := EmitTarget.toRoomExceptCaller sid, event := "server:playerJoined",
            payload := Payload.pObj pj } ] ∧
      deliverTo sock members EmitTarget.toCaller = [sock] ∧
      sock ∉ deliverTo sock members (EmitTarget.toRoomExceptCaller sid) ∧
      ∀ m ∈ members, m ≠ sock → m ∈ deliverTo sock members (EmitTarget.toRoomExceptCaller sid) := by
  refine ⟨_, _, _, rfl, rfl, ?_, ?_⟩
  · simp [deliverTo]
  · intro m hmem hne
    simp only [deliverTo, List.mem_filter]
    exact ⟨hmem, by simpa using hne⟩

/-- C9 witness: alice joins arena from socket 7 while the room holds
sockets 7 and 9; the snapshot is delivered to socket 7 only and the join
notice to socket 9 but not 7. -/
theorem joinGame_emit_targets_witness :
    ∃ gs pj sid,
      (joinGame dbBase "arena" "alice").2 =
        [ { target := EmitTarget.toCaller, event := "server:gameState",
            payload := Payload.pGameState gs },
          { target := EmitTarget.toRoomExceptCaller sid, event := "server:playerJoined",
            payload := Payload.pObj pj } ] ∧
      deliverTo 7 [7, 9] EmitTarget.toCaller = [7] ∧
      7 ∉ deliverTo 7 [7, 9] (EmitTarget.toRoomExceptCaller sid) ∧
      ∀ m ∈ [7, 9], m ≠ 7 → m ∈ deliverTo 7 [7, 9] (EmitTarget.toRoomExceptCaller sid) :=
  joinGame_emit_targets dbBase "arena" "alice" 7 [7, 9]

/-- C10: the part_000 createCard handler persists NULL for the
card_suit_intellect_modifier and card_suit_rally_modifier columns even
when the caller supplies truthy values under those exact names, because
the INSERT reads the misspelled cardData properties
card_intellect_modifier and card_rally_modifier; the src/server/index.js
version of the same handler reads the correct names and persists the
supplied values. -/
theorem createCard_drops_supplied_suit_modifiers :
    ((createCard dbBase 1 "alice" suitDefData).1.cards.map
        (fun c => CardRow.get c "card_suit_intellect_modifier")) =
      [CardRow.get suitCardRow "card_suit_intellect_modifier", JSValue.vNull] ∧
    ((createCard dbBase 1 "alice" suitDefData).1.cards.map
        (fun c => CardRow.get c "card_suit_rally_modifier")) =
      [CardRow.get suitCardRow "card_suit_rally_modifier", JSValue.vNull] ∧
    JSObj.get suitDefData "card_suit_intellect_modifier" = JSValue.vNum 3 ∧
    JSObj.get suitDefData "card_suit_rally_modifier" = JSValue.vNum 2 ∧
    ((createCardIndexJs dbBase 1 "alice" suitDefData).1.cards.map
        (fun c => CardRow.get c "card_suit_intellect_modifier")) =
      [CardRow.get suitCardRow "card_suit_intellect_modifier", JSValue.vNum 3] ∧
    ((createCardIndexJs dbBase 1 "alice" suitDefData).1.cards.map
        (fun c => CardRow.get c "card_suit_rally_modifier")) =
      [CardRow.get suitCardRow "card_suit_rally_modifier", JSValue.vNum 2] :=
  ⟨rfl, rfl, rfl, rfl, rfl, rfl⟩
